import Mathlib

/-
  Verification of the transboundary air-quality pipeline
  (agents/orchestrator.py and agents/dhaka_agent.py).

  The Python code is shallowly embedded over the rationals: Python floats
  become exact rationals, dicts with optional keys become structures of
  Option fields, and Python's built-in round (round-half-to-even on the
  number of digits asked for) becomes pyRound below.  String parsing of
  timestamps is abstracted at the boundary: a measurement carries the
  outcome of datetime.fromisoformat (unparsable, or parsed together with
  the absolute difference in seconds from the current wall clock), since
  the calendar arithmetic itself is external to the logic under test.
  Wall-clock reads (datetime.now) are threaded as explicit parameters.
-/

namespace S2P

/-- Python's banker rounding of a rational to an integer:
round half to even, otherwise to the nearest integer. -/
def rhe (x : ℚ) : ℤ :=
  if Int.fract x = 1 / 2 then (if Even ⌊x⌋ then ⌊x⌋ else ⌊x⌋ + 1) else round x

/-- Python's round(x, d) over exact rationals. -/
def pyRound (d : ℕ) (x : ℚ) : ℚ := (rhe (x * 10 ^ d) : ℚ) / 10 ^ d

theorem rhe_intCast (n : ℤ) : rhe (n : ℚ) = n := by
  simp [rhe, Int.fract_intCast]

/-- Rounding x and n - x to nearest-even adds back to n whenever n is even:
the two fractional parts are complementary, and at an exact tie the floor
parities of the two sides disagree. -/
theorem rhe_add_compl (n : ℤ) (x : ℚ) (hn : Even n) :
    rhe x + rhe ((n : ℚ) - x) = n := by
  have hfl : ((⌊x⌋ : ℚ)) + Int.fract x = x := Int.floor_add_fract x
  have hf0 : 0 ≤ Int.fract x := Int.fract_nonneg x
  have hf1 : Int.fract x < 1 := Int.fract_lt_one x
  rcases eq_or_ne (Int.fract x) 0 with h0 | h0
  · have hx : x = ((⌊x⌋ : ℤ) : ℚ) := by
      have hq := hfl
      rw [h0, add_zero] at hq
      exact hq.symm
    have hcast : (n : ℚ) - ((⌊x⌋ : ℤ) : ℚ) = ((n - ⌊x⌋ : ℤ) : ℚ) := by push_cast; ring
    rw [hx, hcast, rhe_intCast, rhe_intCast]
    omega
  · have hfpos : 0 < Int.fract x := lt_of_le_of_ne hf0 (Ne.symm h0)
    have hfloor2 : ⌊(n : ℚ) - x⌋ = n - ⌊x⌋ - 1 := by
      rw [Int.floor_eq_iff]
      constructor
      · push_cast
        nlinarith [hfl, hf1]
      · push_cast
        nlinarith [hfl, hfpos]
    have hfr2 : Int.fract ((n : ℚ) - x) = 1 - Int.fract x := by
      have hdef : Int.fract ((n : ℚ) - x) = ((n : ℚ) - x) - (⌊(n : ℚ) - x⌋ : ℚ) := rfl
      rw [hdef, hfloor2]
      push_cast
      nlinarith [hfl]
    rcases lt_trichotomy (Int.fract x) (1 / 2) with hlt | heq | hgt
    · have h1 : Int.fract x ≠ 1 / 2 := ne_of_lt hlt
      have h2 : Int.fract ((n : ℚ) - x) ≠ 1 / 2 := by
        rw [hfr2]
        intro hcon
        nlinarith
      rw [rhe, if_neg h1, rhe, if_neg h2, round_eq, round_eq]
      have r1 : ⌊x + 1 / 2⌋ = ⌊x⌋ := by
        rw [Int.floor_eq_iff]
        constructor
        · nlinarith [hfl]
        · nlinarith [hfl, hlt]
      have r2 : ⌊(n : ℚ) - x + 1 / 2⌋ = n - ⌊x⌋ := by
        rw [Int.floor_eq_iff]
        constructor
        · push_cast
          nlinarith [hfl]
        · push_cast
          nlinarith [hfl, hfpos]
      rw [r1, r2]
      omega
    · have h2 : Int.fract ((n : ℚ) - x) = 1 / 2 := by
        rw [hfr2, heq]
        norm_num
      rw [rhe, if_pos heq, rhe, if_pos h2, hfloor2]
      by_cases he : Even ⌊x⌋
      · have hodd : ¬ Even (n - ⌊x⌋ - 1) := by
          obtain ⟨a, ha⟩ := hn
          obtain ⟨b, hb⟩ := he
          rintro ⟨c, hc⟩
          omega
        rw [if_pos he, if_neg hodd]
        omega
      · have heven : Even (n - ⌊x⌋ - 1) := by
          obtain ⟨a, ha⟩ := hn
          obtain ⟨b, hb⟩ := Int.not_even_iff_odd.mp he
          exact ⟨a - b - 1, by omega⟩
        rw [if_neg he, if_pos heven]
        omega
    · have h1 : Int.fract x ≠ 1 / 2 := ne_of_gt hgt
      have h2 : Int.fract ((n : ℚ) - x) ≠ 1 / 2 := by
        rw [hfr2]
        intro hcon
        nlinarith
      rw [rhe, if_neg h1, rhe, if_neg h2, round_eq, round_eq]
      have r1 : ⌊x + 1 / 2⌋ = ⌊x⌋ + 1 := by
        rw [Int.floor_eq_iff]
        constructor
        · push_cast
          nlinarith [hfl]
        · push_cast
          nlinarith [hfl, hf1]
      have r2 : ⌊(n : ℚ) - x + 1 / 2⌋ = n - ⌊x⌋ - 1 := by
        rw [Int.floor_eq_iff]
        constructor
        · push_cast
          nlinarith [hfl, hf1]
        · push_cast
          nlinarith [hfl, hgt]
      rw [r1, r2]
      omega

/-- Rounding a pair of exact complements to two decimals keeps their sum
exactly 1. -/
theorem pyRound_two_add_compl (x : ℚ) : pyRound 2 x + pyRound 2 (1 - x) = 1 := by
  have h : (1 - x) * 10 ^ 2 = ((100 : ℤ) : ℚ) - x * 10 ^ 2 := by push_cast; ring
  have h100 : Even (100 : ℤ) := ⟨50, by norm_num⟩
  have hsum := rhe_add_compl 100 (x * 10 ^ 2) h100
  unfold pyRound
  rw [h, div_add_div_same]
  rw [show ((rhe (x * 10 ^ 2) : ℚ) + (rhe (((100 : ℤ) : ℚ) - x * 10 ^ 2) : ℚ))
        = ((rhe (x * 10 ^ 2) + rhe (((100 : ℤ) : ℚ) - x * 10 ^ 2) : ℤ) : ℚ) by push_cast; ring]
  rw [hsum]
  norm_num

/-- Outcome of parsing a measurement timestamp string: either
datetime.fromisoformat raised, or it parsed and the absolute difference
in seconds between now and the parsed instant is time_diff. -/
inductive TSVal where
  | unparsable
  | parsed (time_diff : ℚ)
deriving DecidableEq, Repr

/-- A measurement/context dictionary: each Python key becomes an Option
field, none standing for an absent key. -/
structure DataRecord where
  pm25 : Option ℚ := none
  wind_speed_ms : Option ℚ := none
  wind_direction_deg : Option ℚ := none
  boundary_layer_height_m : Option ℚ := none
  temperature : Option ℚ := none
  country_code : Option String := none
  timestamp : Option TSVal := none
  transboundary_percentage : Option ℚ := none
deriving DecidableEq, Repr

/-! ### TransboundaryModel (orchestrator.py lines 172-302) -/

/-- model_coefficients lookup: .get(country, BD entry) with keys BD and IN;
the triple is (alpha, beta, epsilon). -/
def model_coefficients (country : String) : ℚ × ℚ × ℚ :=
  if country = "IN" then (0.55, 0.45, 3.0) else (0.38, 0.62, 5.0)

/-- Base efficiency step function of wind speed
(_calculate_transport_efficiency, first block). -/
def base_efficiency (wind_speed : ℚ) : ℚ :=
  if wind_speed < 1 then 0.1
  else if wind_speed < 3 then 0.3
  else if wind_speed < 6 then 0.6
  else 0.8

/-- Direction factor (_calculate_transport_efficiency, second block):
default 0.5, country "BD" favours wind from 225-315 degrees, every other
country the 45-135 degree range. -/
def direction_factor (country : String) (wind_direction : ℚ) : ℚ :=
  if country = "BD" then
    if 225 ≤ wind_direction ∧ wind_direction ≤ 315 then 1.0
    else if 45 ≤ wind_direction ∧ wind_direction ≤ 135 then 0.2
    else 0.5
  else
    if 45 ≤ wind_direction ∧ wind_direction ≤ 135 then 1.0
    else if 225 ≤ wind_direction ∧ wind_direction ≤ 315 then 0.2
    else 0.5

/-- Boundary layer factor (_calculate_transport_efficiency, third block). -/
def bl_factor (boundary_layer_height : ℚ) : ℚ :=
  if boundary_layer_height < 500 then 1.2
  else if boundary_layer_height < 1000 then 1.0
  else 0.8

/-- _calculate_transport_efficiency: product of the three factors clamped
to the range 0.1 to 0.9. -/
def calculate_transport_efficiency (wind_speed wind_direction boundary_layer_height : ℚ)
    (country : String) : ℚ :=
  max 0.1 (min (base_efficiency wind_speed * direction_factor country wind_direction *
    bl_factor boundary_layer_height) 0.9)

/-- _calculate_transport_time: none models the float inf returned for
wind speed below 0.5 m/s; distances.get(country, 50) with IN mapped to 80. -/
def calculate_transport_time (wind_speed : ℚ) (country : String) : Option ℚ :=
  if wind_speed < 0.5 then none
  else some ((if country = "IN" then 80 else 50) / (wind_speed * 3.6))

/-- The coefficient adjustment inside TransboundaryModel.execute: scale
alpha by 1 - efficiency, beta by efficiency, then renormalize whenever the
total is positive. -/
def adjusted_pair (country : String) (transport_efficiency : ℚ) : ℚ × ℚ :=
  let coef := model_coefficients country
  let adjusted_alpha := coef.1 * (1 - transport_efficiency)
  let adjusted_beta := coef.2.1 * transport_efficiency
  let total := adjusted_alpha + adjusted_beta
  if 0 < total then (adjusted_alpha / total, adjusted_beta / total)
  else (adjusted_alpha, adjusted_beta)

/-- The record TransboundaryModel.execute returns (meteorological echo
fields included). -/
structure ModelResult where
  timestamp : ℚ
  country : String
  base_local : ℚ
  base_transboundary : ℚ
  adjusted_local : ℚ
  adjusted_transboundary : ℚ
  transport_efficiency : ℚ
  transport_time_hours : Option ℚ
  wind_speed_ms : ℚ
  wind_direction_deg : ℚ
  boundary_layer_height_m : ℚ
deriving DecidableEq, Repr

/-- TransboundaryModel.execute (orchestrator.py lines 184-234). -/
def transboundary_execute (data : DataRecord) (now : ℚ) : ModelResult :=
  let wind_speed := data.wind_speed_ms.getD 0
  let wind_direction := data.wind_direction_deg.getD 0
  let boundary_layer_height := data.boundary_layer_height_m.getD 1000
  let country := data.country_code.getD "BD"
  let coef := model_coefficients country
  let te := calculate_transport_efficiency wind_speed wind_direction boundary_layer_height country
  let pair := adjusted_pair country te
  { timestamp := now
    country := country
    base_local := coef.1
    base_transboundary := coef.2.1
    adjusted_local := pyRound 2 pair.1
    adjusted_transboundary := pyRound 2 pair.2
    transport_efficiency := pyRound 2 te
    transport_time_hours := (calculate_transport_time wind_speed country).map (pyRound 1)
    wind_speed_ms := wind_speed
    wind_direction_deg := wind_direction
    boundary_layer_height_m := boundary_layer_height }

theorem transport_efficiency_bounds (ws wd blh : ℚ) (c : String) :
    1 / 10 ≤ calculate_transport_efficiency ws wd blh c ∧
      calculate_transport_efficiency ws wd blh c ≤ 9 / 10 := by
  unfold calculate_transport_efficiency
  constructor
  · have h := le_max_left (0.1 : ℚ)
      (min (base_efficiency ws * direction_factor c wd * bl_factor blh) 0.9)
    calc (1 / 10 : ℚ) = 0.1 := by norm_num
    _ ≤ _ := h
  · apply max_le
    · norm_num
    · calc min (base_efficiency ws * direction_factor c wd * bl_factor blh) 0.9
          ≤ (0.9 : ℚ) := min_le_right _ _
      _ = 9 / 10 := by norm_num

theorem adjusted_pair_round_sum (c : String) (e : ℚ) (h1 : 1 / 10 ≤ e) (h2 : e ≤ 9 / 10) :
    pyRound 2 (adjusted_pair c e).1 + pyRound 2 (adjusted_pair c e).2 = 1 := by
  unfold adjusted_pair model_coefficients
  by_cases hc : c = "IN" <;> simp only [hc, if_true, if_false, reduceIte]
  · have htot : (0 : ℚ) < 0.55 * (1 - e) + 0.45 * e := by nlinarith
    rw [if_pos htot]
    have hb : (0.45 : ℚ) * e / (0.55 * (1 - e) + 0.45 * e)
        = 1 - 0.55 * (1 - e) / (0.55 * (1 - e) + 0.45 * e) := by
      field_simp
    rw [hb]
    exact pyRound_two_add_compl _
  · have htot : (0 : ℚ) < 0.38 * (1 - e) + 0.62 * e := by nlinarith
    rw [if_pos htot]
    have hb : (0.62 : ℚ) * e / (0.38 * (1 - e) + 0.62 * e)
        = 1 - 0.38 * (1 - e) / (0.38 * (1 - e) + 0.62 * e) := by
      field_simp
    rw [hb]
    exact pyRound_two_add_compl _

/-- Claim C1: for every input data record, the adjusted coefficient pair
returned by the transboundary model sums to 1 within 1e-9 (in fact the
rounded pair sums to exactly 1). -/
theorem C1_adjusted_coefficients_sum (data : DataRecord) (now : ℚ) :
    |(transboundary_execute data now).adjusted_local +
      (transboundary_execute data now).adjusted_transboundary - 1| ≤ 1 / 1000000000 := by
  obtain ⟨hl, hr⟩ := transport_efficiency_bounds (data.wind_speed_ms.getD 0)
    (data.wind_direction_deg.getD 0) (data.boundary_layer_height_m.getD 1000)
    (data.country_code.getD "BD")
  have hsum := adjusted_pair_round_sum (data.country_code.getD "BD")
    (calculate_transport_efficiency (data.wind_speed_ms.getD 0)
      (data.wind_direction_deg.getD 0) (data.boundary_layer_height_m.getD 1000)
      (data.country_code.getD "BD")) hl hr
  simp only [transboundary_execute]
  rw [hsum]
  norm_num

/-! ### DataValidator (orchestrator.py lines 34-89) -/

/-- The record DataValidator.execute returns. -/
structure ValidationResults where
  is_valid : Bool
  warnings : List String
  errors : List String
  modified_data : DataRecord
deriving DecidableEq, Repr

/-- DataValidator.execute with max_pm25 = 900: PM2.5 above the maximum is
a warning and is clamped in modified_data, PM2.5 below 0 is an error, wind
speed above 30 is a warning and is clamped, a present but unparsable
timestamp is an error, a parsed timestamp more than 86400 seconds away is
a warning.  An absent key skips its whole block. -/
def data_validator_execute (data : DataRecord) : ValidationResults :=
  let r0 : ValidationResults := ⟨true, [], [], data⟩
  let r1 := match data.pm25 with
    | some pm25 =>
      let ra := if 900 < pm25 then
          { r0 with warnings := r0.warnings ++ ["PM2.5 value exceeds maximum threshold"],
                    modified_data := { r0.modified_data with pm25 := some 900 } }
        else r0
      if pm25 < 0 then
        { ra with errors := ra.errors ++ ["PM2.5 value below minimum threshold"],
                  is_valid := false }
      else ra
    | none => r0
  let r2 := match data.wind_speed_ms with
    | some wind_speed =>
      if 30 < wind_speed then
        { r1 with warnings := r1.warnings ++ ["Wind speed exceeds maximum threshold"],
                  modified_data := { r1.modified_data with wind_speed_ms := some 30 } }
      else r1
    | none => r1
  match data.timestamp with
  | none => r2
  | some TSVal.unparsable =>
    { r2 with errors := r2.errors ++ ["Invalid timestamp format"], is_valid := false }
  | some (TSVal.parsed time_diff) =>
    if 86400 < time_diff then
      { r2 with warnings := r2.warnings ++ ["Data timestamp is old"] }
    else r2

/-! ### DhakaDataValidator (dhaka_agent.py lines 217-275) -/

/-- The record DhakaDataValidator.validate_measurement returns. -/
structure DhakaValidationResult where
  is_valid : Bool
  warnings : List String
  errors : List String
  quality_score : ℚ
deriving DecidableEq, Repr

/-- DhakaDataValidator.validate_measurement: PM2.5 above 900 is a warning
scaling the quality score by 0.8, PM2.5 below 0 an error, temperature
outside 5-50 a warning scaling by 0.9, a timestamp older than 3600 seconds
a warning scaling by 0.95.  measurement["timestamp"] raises a KeyError for
an absent key, so an absent or unparsable timestamp is an error. -/
def validate_measurement (measurement : DataRecord) : DhakaValidationResult :=
  let r0 : DhakaValidationResult := ⟨true, [], [], 1.0⟩
  let pm25 := measurement.pm25.getD 0
  let r1 := if 900 < pm25 then
      { r0 with warnings := r0.warnings ++ ["PM2.5 value exceeds maximum threshold"],
                quality_score := r0.quality_score * 0.8 }
    else r0
  let r2 := if pm25 < 0 then
      { r1 with errors := r1.errors ++ ["PM2.5 value below minimum threshold"],
                is_valid := false }
    else r1
  let r3 := match measurement.temperature with
    | some temp =>
      if 50 < temp ∨ temp < 5 then
        { r2 with warnings := r2.warnings ++ ["Temperature outside expected range"],
                  quality_score := r2.quality_score * 0.9 }
      else r2
    | none => r2
  match measurement.timestamp with
  | some (TSVal.parsed time_diff) =>
    if 3600 < time_diff then
      { r3 with warnings := r3.warnings ++ ["Measurement timestamp old"],
                quality_score := r3.quality_score * 0.95 }
    else r3
  | _ =>
    { r3 with errors := r3.errors ++ ["Invalid timestamp format"], is_valid := false }

/-! ### EmissionTracker (orchestrator.py lines 91-170) -/

/-- emission_sources table; .get(country, BD entry). -/
def emission_sources (country : String) : List (String × ℚ) :=
  if country = "IN" then
    [("vehicles", 0.40), ("industries", 0.25), ("construction", 0.15),
     ("waste_burning", 0.10), ("brick_kilns", 0.05), ("others", 0.05)]
  else
    [("brick_kilns", 0.35), ("vehicles", 0.25), ("industries", 0.20),
     ("construction", 0.10), ("waste_burning", 0.05), ("others", 0.05)]

/-- The record EmissionTracker.execute returns. -/
structure EmissionResult where
  timestamp : ℚ
  country : String
  pm25_total : ℚ
  local_contribution : ℚ
  local_percentage : ℚ
  transboundary_contribution : ℚ
  transboundary_percentage : ℚ
  source_contributions : List (String × ℚ)
  model : String
  confidence_level : String
deriving DecidableEq, Repr

/-- EmissionTracker.execute (orchestrator.py lines 117-170). -/
def emission_execute (data : DataRecord) (now : ℚ) : EmissionResult :=
  let country := data.country_code.getD "BD"
  let pm25 := data.pm25.getD 0
  let sources := emission_sources country
  let wind_direction := data.wind_direction_deg.getD 0
  let wind_speed := data.wind_speed_ms.getD 0
  let transboundary_factor :=
    if country = "BD" then
      if 225 ≤ wind_direction ∧ wind_direction ≤ 315 then min 1.0 (wind_speed / 10.0) * 0.6
      else 0.2
    else
      if 45 ≤ wind_direction ∧ wind_direction ≤ 135 then min 1.0 (wind_speed / 10.0) * 0.4
      else 0.1
  { timestamp := now
    country := country
    pm25_total := pm25
    local_contribution := pyRound 1 (pm25 * (1 - transboundary_factor))
    local_percentage := pyRound 1 ((1 - transboundary_factor) * 100)
    transboundary_contribution := pyRound 1 (pm25 * transboundary_factor)
    transboundary_percentage := pyRound 1 (transboundary_factor * 100)
    source_contributions := sources.map (fun p => (p.1, pyRound 1 (pm25 * p.2)))
    model := "PMF 4.0"
    confidence_level := "medium" }

/-! ### PolicyDecisionEngine (orchestrator.py lines 304-382) -/

/-- decision_thresholds lookup, (emergency, severe, poor, moderate);
.get(country, BD entry). -/
def decision_thresholds (country : String) : ℚ × ℚ × ℚ × ℚ :=
  if country = "IN" then (180, 120, 90, 50) else (200, 150, 100, 50)

/-- The category cascade inside PolicyDecisionEngine.execute, tested from
emergency down to moderate, first match wins, else good. -/
def air_quality_category (pm25 : ℚ) (country : String) : String :=
  let thresholds := decision_thresholds country
  if thresholds.1 ≤ pm25 then "emergency"
  else if thresholds.2.1 ≤ pm25 then "severe"
  else if thresholds.2.2.1 ≤ pm25 then "poor"
  else if thresholds.2.2.2 ≤ pm25 then "moderate"
  else "good"

/-- policy_actions double lookup: .get(country, empty dict).get(category,
empty list), so an unknown country yields no actions at all. -/
def policy_actions (country category : String) : List String :=
  if country = "BD" then
    if category = "emergency" then ["brick_kiln_shutdown", "odd_even_vehicles", "school_closure"]
    else if category = "severe" then ["brick_kiln_shutdown", "construction_halt"]
    else if category = "poor" then ["construction_halt", "street_watering"]
    else if category = "moderate" then ["street_watering", "public_advisory"]
    else []
  else if country = "IN" then
    if category = "emergency" then ["odd_even_vehicles", "school_closure", "industrial_audit"]
    else if category = "severe" then ["school_closure", "industrial_audit"]
    else if category = "poor" then ["industrial_audit", "street_watering"]
    else if category = "moderate" then ["street_watering", "public_advisory"]
    else []
  else []

/-- The record PolicyDecisionEngine.execute returns. -/
structure PolicyDecision where
  timestamp : ℚ
  country : String
  pm25_level : ℚ
  air_quality_category : String
  recommended_actions : List String
  transboundary_contribution_percent : ℚ
  cross_border_coordination_needed : Bool
  implementation_priority : String
  expected_impact : String
deriving DecidableEq, Repr

/-- PolicyDecisionEngine.execute (orchestrator.py lines 340-382). -/
def policy_execute (data : DataRecord) (now : ℚ) : PolicyDecision :=
  let pm25 := data.pm25.getD 0
  let country := data.country_code.getD "BD"
  let transboundary_percent := data.transboundary_percentage.getD 0
  let category := air_quality_category pm25 country
  { timestamp := now
    country := country
    pm25_level := pm25
    air_quality_category := category
    recommended_actions := policy_actions country category
    transboundary_contribution_percent := transboundary_percent
    cross_border_coordination_needed :=
      decide (30 < transboundary_percent ∧ (category = "emergency" ∨ category = "severe"))
    implementation_priority :=
      if category = "emergency" ∨ category = "severe" then "high" else "normal"
    expected_impact :=
      if category = "emergency" ∨ category = "severe" then "significant" else "moderate" }

/-! ### The warning triggers of DhakaDataValidator.validate_measurement -/

/-- The PM2.5-above-maximum warning fires. -/
def warns_pm25 (m : DataRecord) : Bool := decide (900 < m.pm25.getD 0)

/-- The temperature-out-of-range warning fires. -/
def warns_temperature (m : DataRecord) : Bool :=
  match m.temperature with
  | some temp => decide (50 < temp ∨ temp < 5)
  | none => false

/-- The stale-timestamp warning fires. -/
def warns_timestamp (m : DataRecord) : Bool :=
  match m.timestamp with
  | some (TSVal.parsed time_diff) => decide (3600 < time_diff)
  | _ => false

/-- The quality score is exactly the product of one factor per fired
warning. -/
theorem quality_score_eq_factors (m : DataRecord) :
    (validate_measurement m).quality_score =
      (if warns_pm25 m then 0.8 else 1) * (if warns_temperature m then 0.9 else 1) *
        (if warns_timestamp m then 0.95 else 1) := by
  rcases htemp : m.temperature with _ | t <;>
    rcases ht : m.timestamp with _ | ⟨_ | a⟩ <;>
      simp only [validate_measurement, warns_pm25, warns_temperature, warns_timestamp,
        htemp, ht, decide_eq_true_eq] <;>
      split_ifs <;> first | contradiction | norm_num

/-- Claim C4: the Dhaka validator rejects a measurement (is_valid false)
exactly when its PM2.5 value is below 0 or its timestamp fails to parse
(absent or unparsable); every other violation is only a warning.  In
particular PM2.5 equal to 0 with a fresh parsed timestamp is valid with no
error. -/
theorem C4_invalid_iff_negative_pm25_or_bad_timestamp (m : DataRecord) :
    ((validate_measurement m).is_valid = false ↔
      (m.pm25.getD 0 < 0 ∨ m.timestamp = none ∨ m.timestamp = some TSVal.unparsable)) ∧
    (validate_measurement { pm25 := some 0, timestamp := some (TSVal.parsed 0) }).is_valid
      = true ∧
    (validate_measurement { pm25 := some 0, timestamp := some (TSVal.parsed 0) }).errors
      = [] := by
  refine ⟨?_, by decide, by decide⟩
  rcases htemp : m.temperature with _ | t <;>
    rcases ht : m.timestamp with _ | ⟨_ | a⟩ <;>
      simp only [validate_measurement, htemp, ht] <;>
      (try split_ifs) <;> first | contradiction | simp_all

/-- Claim C9: the quality score lies in (0, 1], each fired warning scales
it by a factor among 0.8, 0.9, 0.95, and a measurement m firing a superset
of the warnings of a measurement mo scores no higher than mo. -/
theorem C9_quality_score_in_unit_and_antitone (m mo : DataRecord) :
    0 < (validate_measurement m).quality_score ∧
    (validate_measurement m).quality_score ≤ 1 ∧
    ((warns_pm25 mo = true → warns_pm25 m = true) →
      (warns_temperature mo = true → warns_temperature m = true) →
      (warns_timestamp mo = true → warns_timestamp m = true) →
      (validate_measurement m).quality_score ≤ (validate_measurement mo).quality_score) := by
  rw [quality_score_eq_factors m, quality_score_eq_factors mo]
  refine ⟨by split_ifs <;> norm_num, by split_ifs <;> norm_num, ?_⟩
  intro h1 h2 h3
  have fa : (if warns_pm25 m then (0.8 : ℚ) else 1) ≤ (if warns_pm25 mo then 0.8 else 1) := by
    cases hw : warns_pm25 mo
    · simp only [hw, if_false, Bool.false_eq_true]
      split_ifs <;> norm_num
    · rw [h1 hw]
  have fb : (if warns_temperature m then (0.9 : ℚ) else 1)
      ≤ (if warns_temperature mo then 0.9 else 1) := by
    cases hw : warns_temperature mo
    · simp only [hw, if_false, Bool.false_eq_true]
      split_ifs <;> norm_num
    · rw [h2 hw]
  have fc : (if warns_timestamp m then (0.95 : ℚ) else 1)
      ≤ (if warns_timestamp mo then 0.95 else 1) := by
    cases hw : warns_timestamp mo
    · simp only [hw, if_false, Bool.false_eq_true]
      split_ifs <;> norm_num
    · rw [h3 hw]
  have nb : (0 : ℚ) ≤ if warns_temperature m then 0.9 else 1 := by split_ifs <;> norm_num
  have na : (0 : ℚ) ≤ if warns_pm25 mo then 0.8 else 1 := by split_ifs <;> norm_num
  have nc : (0 : ℚ) ≤ if warns_timestamp m then 0.95 else 1 := by split_ifs <;> norm_num
  have nab : (0 : ℚ) ≤ (if warns_pm25 mo then (0.8 : ℚ) else 1) *
      (if warns_temperature mo then 0.9 else 1) := by
    apply mul_nonneg na
    split_ifs <;> norm_num
  exact mul_le_mul (mul_le_mul fa fb nb na) fc nc nab

/-- A concrete Dhaka-style input: PM2.5 139, country BD, transboundary
percent 62. -/
def pm139_bd : DataRecord :=
  { pm25 := some 139, country_code := some "BD", transboundary_percentage := some 62 }

/-- Claim C5: cross-border coordination is needed exactly when the
transboundary percent exceeds 30 and the category, chosen by the
first-match cascade from emergency down, is severe or emergency; at
PM2.5 139 with the BD thresholds the category is poor and coordination is
not needed even at a transboundary percent above 30. -/
theorem C5_coordination_iff_severe_and_transboundary (data : DataRecord) (now : ℚ) :
    ((policy_execute data now).cross_border_coordination_needed = true ↔
      (30 < data.transboundary_percentage.getD 0 ∧
        ((policy_execute data now).air_quality_category = "severe" ∨
          (policy_execute data now).air_quality_category = "emergency"))) ∧
    (policy_execute data now).air_quality_category =
      air_quality_category (data.pm25.getD 0) (data.country_code.getD "BD") ∧
    air_quality_category 139 "BD" = "poor" ∧
    (policy_execute pm139_bd now).cross_border_coordination_needed = false := by
  refine ⟨?_, rfl, by decide, rfl⟩
  simp only [policy_execute, decide_eq_true_eq]
  tauto

/-- Claim C3 counterexample: the decision record embeds the wall clock
read at execution time, so two calls of PolicyDecisionEngine.execute with
identical inputs at different instants return different records. -/
theorem C3_counterexample_distinct_timestamps :
    policy_execute pm139_bd 0 ≠ policy_execute pm139_bd 1 := by
  intro h
  have ht := congrArg PolicyDecision.timestamp h
  simp only [policy_execute] at ht
  exact absurd ht (by norm_num)

/-- Claim C3 amended: two calls of PolicyDecisionEngine.execute with
identical inputs agree on every field of the decision except the wall
clock timestamp; apart from that field the engine is a pure function of
its inputs. -/
theorem C3_pure_function_modulo_timestamp (data : DataRecord) (t1 t2 : ℚ) :
    (policy_execute data t1).country = (policy_execute data t2).country ∧
    (policy_execute data t1).pm25_level = (policy_execute data t2).pm25_level ∧
    (policy_execute data t1).air_quality_category
      = (policy_execute data t2).air_quality_category ∧
    (policy_execute data t1).recommended_actions
      = (policy_execute data t2).recommended_actions ∧
    (policy_execute data t1).transboundary_contribution_percent
      = (policy_execute data t2).transboundary_contribution_percent ∧
    (policy_execute data t1).cross_border_coordination_needed
      = (policy_execute data t2).cross_border_coordination_needed ∧
    (policy_execute data t1).implementation_priority
      = (policy_execute data t2).implementation_priority ∧
    (policy_execute data t1).expected_impact = (policy_execute data t2).expected_impact :=
  ⟨rfl, rfl, rfl, rfl, rfl, rfl, rfl, rfl⟩

/-! ### Claim C8: the transport efficiency formula -/

/-- Modelled from the claim wording: boundary-layer factor 1.2 below
500 m, 0.8 strictly above 1000 m, 1.0 in between. -/
def claimed_bl_factor (boundary_layer_height : ℚ) : ℚ :=
  if boundary_layer_height < 500 then 1.2
  else if 1000 < boundary_layer_height then 0.8
  else 1.0

/-- The efficiency formula exactly as claim C8 words it (base and
direction factors as the code fixes them, since the claim does not dispute
their cutoffs). -/
def claimed_transport_efficiency (ws wd blh : ℚ) (c : String) : ℚ :=
  max 0.1 (min (base_efficiency ws * direction_factor c wd * claimed_bl_factor blh) 0.9)

/-- Claim C8 counterexample: at boundary layer height exactly 1000 m the
code already applies the 0.8 factor although the claim reserves 0.8 for
heights strictly above 1000 m, so the code efficiency is 0.32 where the
claimed formula gives 0.4. -/
theorem C8_counterexample_height_1000 :
    calculate_transport_efficiency 7 0 1000 "BD" = 8 / 25 ∧
    claimed_transport_efficiency 7 0 1000 "BD" = 2 / 5 ∧
    calculate_transport_efficiency 7 0 1000 "BD"
      ≠ claimed_transport_efficiency 7 0 1000 "BD" := by
  refine ⟨?_, ?_, ?_⟩ <;>
    norm_num [calculate_transport_efficiency, claimed_transport_efficiency,
      base_efficiency, direction_factor, bl_factor, claimed_bl_factor]

/-- The boundary-layer bucket as the amended claim words it: 0.8 from
1000 m up, inclusive. -/
def amended_bl_factor (boundary_layer_height : ℚ) : ℚ :=
  if boundary_layer_height < 500 then 1.2
  else if 1000 ≤ boundary_layer_height then 0.8
  else 1.0

/-- Claim C8 amended: the transport efficiency equals base times direction
times boundary-layer factor clamped to the range 0.1 to 0.9, with the
boundary-layer factor 1.2 below 500 m, 1.0 from 500 m up to but excluding
1000 m, and 0.8 from 1000 m up. -/
theorem C8_efficiency_formula_amended (ws wd blh : ℚ) (c : String) :
    calculate_transport_efficiency ws wd blh c =
      max 0.1 (min (base_efficiency ws * direction_factor c wd * amended_bl_factor blh)
        0.9) := by
  unfold calculate_transport_efficiency bl_factor amended_bl_factor
  split_ifs <;> first | rfl | linarith

/-! ### RegionalOrchestrator (orchestrator.py lines 384-821) -/

/-- A city entry of the context dictionary.  missing stands for an absent
key or any falsy value (the empty dict context.get falls back to), nonDict
for a truthy value that is not a dictionary, on which the membership test
"country_code" not in city_data raises a TypeError inside the per-city
try block. -/
inductive PyCityData where
  | missing
  | nonDict
  | dict (d : DataRecord)
deriving DecidableEq, Repr

/-- The record _process_city_data returns. -/
structure CityResult where
  status : String
  country_code : String
  errors : List String := []
  error : Option String := none
  pm25 : Option ℚ := none
  emission_analysis : Option EmissionResult := none
  transboundary_model : Option ModelResult := none
  policy_recommendations : Option PolicyDecision := none
deriving DecidableEq, Repr

/-- The country-code fixup at the top of _process_city_data's try block:
city_data["country_code"] = country_code when the key is absent. -/
def city_input (d : DataRecord) (country_code : String) : DataRecord :=
  { d with country_code := some (d.country_code.getD country_code) }

/-- The body of _process_city_data's try block, in an exception monad:
validate, then run the emission tracker, the transboundary model and the
policy engine on the validated (clamped) data. -/
def city_body (cd : PyCityData) (country_code : String) (now : ℚ) :
    Except String CityResult :=
  match cd with
  | PyCityData.missing => Except.error "unreachable: handled before the try block"
  | PyCityData.nonDict => Except.error "TypeError: argument is not iterable"
  | PyCityData.dict d =>
    let d2 := city_input d country_code
    let validation_result := data_validator_execute d2
    if validation_result.is_valid = false then
      Except.ok { status := "validation_failed", errors := validation_result.errors,
                  country_code := country_code }
    else
      let validated_data := validation_result.modified_data
      let emission_result := emission_execute validated_data now
      let model_result := transboundary_execute validated_data now
      let policy_input := { validated_data with
        transboundary_percentage := some (model_result.adjusted_transboundary * 100) }
      let policy_result := policy_execute policy_input now
      Except.ok { status := "success", country_code := country_code,
                  pm25 := some (validated_data.pm25.getD 0),
                  emission_analysis := some emission_result,
                  transboundary_model := some model_result,
                  policy_recommendations := some policy_result }

/-- _process_city_data (orchestrator.py lines 484-539): falsy input short
circuits to no_data before the try block; an exception inside the body is
caught at the per-city boundary and becomes a city-level error record. -/
def process_city_data (cd : PyCityData) (country_code : String) (now : ℚ) : CityResult :=
  match cd with
  | PyCityData.missing => { status := "no_data", country_code := country_code }
  | _ =>
    match city_body cd country_code now with
    | Except.ok r => r
    | Except.error e => { status := "error", error := some e, country_code := country_code }

/-- How _coordinate_cross_border_actions and _generate_alerts read the
adjusted transboundary fraction out of a city result dict, with .get
defaults at every step. -/
def result_transboundary (r : CityResult) : ℚ :=
  (r.transboundary_model.map ModelResult.adjusted_transboundary).getD 0

/-- How the orchestrator reads the air quality category out of a city
result dict, defaulting to the empty string. -/
def result_category (r : CityResult) : String :=
  (r.policy_recommendations.map PolicyDecision.air_quality_category).getD ""

/-- How the orchestrator reads the recommended actions out of a city
result dict, defaulting to the empty list. -/
def result_actions (r : CityResult) : List String :=
  (r.policy_recommendations.map PolicyDecision.recommended_actions).getD []

/-- One entry of the coordinated_actions list. -/
structure CoordAction where
  action_type : String
  status : String
  participating_countries : List String
deriving DecidableEq, Repr

/-- The record _coordinate_cross_border_actions returns. -/
structure CoordinationResult where
  status : String
  coordinated_actions : List CoordAction
deriving DecidableEq, Repr

/-- _coordinate_cross_border_actions (orchestrator.py lines 541-651). -/
def coordinate_cross_border_actions (dhaka_results kolkata_results : CityResult) :
    CoordinationResult :=
  let dhaka_needs := dhaka_results.status = "success" ∧
    (dhaka_results.policy_recommendations.map
      PolicyDecision.cross_border_coordination_needed).getD false = true
  let kolkata_needs := kolkata_results.status = "success" ∧
    (kolkata_results.policy_recommendations.map
      PolicyDecision.cross_border_coordination_needed).getD false = true
  if ¬ (dhaka_needs ∨ kolkata_needs) then
    { status := "not_needed", coordinated_actions := [] }
  else if dhaka_needs ∧ kolkata_needs then
    { status := "success",
      coordinated_actions :=
        [⟨"bilateral_emergency_response", "approved", ["BD", "IN"]⟩] }
  else if dhaka_needs then
    { status := "success",
      coordinated_actions := [⟨"transboundary_notification", "proposed", ["BD", "IN"]⟩] }
  else
    { status := "success",
      coordinated_actions := [⟨"transboundary_notification", "proposed", ["IN", "BD"]⟩] }

/-- An alert dictionary: the union of the fields of the per-city
pollution_spike alerts built by _create_alert and of the
transboundary_transport alert, optional where only one shape has the
key. -/
structure AlertRecord where
  alert_type : String
  severity : String
  origin_country : Option String := none
  affected_countries : List String
  current_pm25 : Option ℚ := none
  dhaka_pm25 : Option ℚ := none
  kolkata_pm25 : Option ℚ := none
  transboundary_contribution : Option ℚ := none
  recommended_actions : List String := []
  coordination_required : Option Bool := none
deriving DecidableEq, Repr

/-- severity_map.get(category, "moderate") in _create_alert. -/
def severity_map (category : String) : String :=
  if category = "emergency" then "emergency"
  else if category = "severe" then "high"
  else if category = "poor" then "moderate"
  else if category = "moderate" then "low"
  else if category = "good" then "low"
  else "moderate"

/-- _create_alert (orchestrator.py lines 749-794), message strings left
aside. -/
def create_alert (country : String) (pm25 : ℚ) (category : String)
    (transboundary_percent : ℚ) (recommended_actions : List String) : AlertRecord :=
  { alert_type := "pollution_spike"
    severity := severity_map category
    origin_country := some country
    affected_countries := [country]
    current_pm25 := some pm25
    transboundary_contribution := some transboundary_percent
    recommended_actions := recommended_actions
    coordination_required := some (decide (30 < transboundary_percent)) }

/-- An alert together with where it was distributed: one entry per
protocol call, carrying the protocol country and the channel list. -/
structure DispatchedAlert where
  alert : AlertRecord
  dispatches : List (String × List String)
deriving DecidableEq, Repr

/-- The record _generate_alerts returns. -/
structure AlertsResult where
  status : String
  alerts : List DispatchedAlert
  error : Option String := none
deriving DecidableEq, Repr

/-- The fixed channel set of the per-city alerts. -/
def city_channels : List String :=
  ["government", "public_sms", "digital_billboards", "mobile_app"]

/-- _generate_alerts (orchestrator.py lines 653-747): one pollution_spike
alert per successful city whose category is emergency or severe, and one
transboundary_transport alert, distributed to both governments only, when
both cities succeeded and either adjusted transboundary fraction crosses
its alarm threshold (0.5 for Dhaka, 0.4 for Kolkata). -/
def generate_alerts (dhaka_results kolkata_results : CityResult) : AlertsResult :=
  let alerts0 : List DispatchedAlert := []
  let alerts1 :=
    if dhaka_results.status = "success" ∧
        (result_category dhaka_results = "emergency" ∨
          result_category dhaka_results = "severe") then
      alerts0 ++ [⟨create_alert "BD" (dhaka_results.pm25.getD 0)
        (result_category dhaka_results) (result_transboundary dhaka_results * 100)
        (result_actions dhaka_results), [("BD", city_channels)]⟩]
    else alerts0
  let alerts2 :=
    if kolkata_results.status = "success" ∧
        (result_category kolkata_results = "emergency" ∨
          result_category kolkata_results = "severe") then
      alerts1 ++ [⟨create_alert "IN" (kolkata_results.pm25.getD 0)
        (result_category kolkata_results) (result_transboundary kolkata_results * 100)
        (result_actions kolkata_results), [("IN", city_channels)]⟩]
    else alerts1
  let alerts3 :=
    if dhaka_results.status = "success" ∧ kolkata_results.status = "success" then
      if 0.5 < result_transboundary dhaka_results ∨
          0.4 < result_transboundary kolkata_results then
        alerts2 ++ [⟨{ alert_type := "transboundary_transport", severity := "high",
                       affected_countries := ["BD", "IN"],
                       dhaka_pm25 := some (dhaka_results.pm25.getD 0),
                       kolkata_pm25 := some (kolkata_results.pm25.getD 0) },
                     [("BD", ["government"]), ("IN", ["government"])]⟩]
      else alerts2
    else alerts2
  { status := "success", alerts := alerts3 }

/-- The orchestration_stats dictionary. -/
structure OrchStats where
  total_runs : ℕ
  successful_runs : ℕ
  last_run : Option ℚ
  average_processing_time : ℚ
  alerts_generated : ℕ
  policies_coordinated : ℕ
deriving DecidableEq, Repr

/-- The statistics a fresh RegionalOrchestrator starts with. -/
def initial_stats : OrchStats :=
  { total_runs := 0, successful_runs := 0, last_run := none,
    average_processing_time := 0, alerts_generated := 0, policies_coordinated := 0 }

/-- _update_orchestration_stats (orchestrator.py lines 796-810):
increment the counters, then fold the processing time into the rolling
average over the new total. -/
def update_orchestration_stats (s : OrchStats) (processing_time : ℚ)
    (alerts_generated policies_coordinated : ℕ) (now : ℚ) : OrchStats :=
  let s1 : OrchStats :=
    { s with total_runs := s.total_runs + 1, successful_runs := s.successful_runs + 1,
             last_run := some now,
             alerts_generated := s.alerts_generated + alerts_generated,
             policies_coordinated := s.policies_coordinated + policies_coordinated }
  let total_time := s1.average_processing_time * ((s1.total_runs : ℚ) - 1) + processing_time
  { s1 with average_processing_time := total_time / (s1.total_runs : ℚ) }

/-- The context argument of RegionalOrchestrator.run: None or another
falsy value, a truthy non-dictionary, or a dictionary carrying the two
city entries (an absent key yields PyCityData.missing via .get with the
empty-dict default). -/
inductive PyCtx where
  | noneV
  | nonDict
  | dict (dhaka_data kolkata_data : PyCityData)
deriving DecidableEq, Repr

/-- The record RegionalOrchestrator.run returns. -/
structure RunResult where
  status : String
  timestamp : ℚ
  error : Option String := none
  processing_time_seconds : Option ℚ := none
  dhaka : Option CityResult := none
  kolkata : Option CityResult := none
  cross_border_coordination : Option CoordinationResult := none
  alerts : Option AlertsResult := none
  orchestration_stats : Option OrchStats := none
deriving DecidableEq, Repr

/-- The try block of RegionalOrchestrator.run (orchestrator.py lines
428-473): the invalid-context guard returns an error record without
touching the statistics; otherwise both cities are processed, coordination
and alerts are generated, and the statistics are updated before the
success record is assembled.  now is the wall clock, processing_time the
elapsed seconds the code measures around the body. -/
def run_body (ctx : PyCtx) (now processing_time : ℚ) (s : OrchStats) :
    Except String (RunResult × OrchStats) :=
  match ctx with
  | PyCtx.noneV =>
    Except.ok ({ status := "error", error := some "Invalid or missing context data",
                 timestamp := now }, s)
  | PyCtx.nonDict =>
    Except.ok ({ status := "error", error := some "Invalid or missing context data",
                 timestamp := now }, s)
  | PyCtx.dict dhaka_data kolkata_data =>
    let dhaka_results := process_city_data dhaka_data "BD" now
    let kolkata_results := process_city_data kolkata_data "IN" now
    let coordination_results := coordinate_cross_border_actions dhaka_results kolkata_results
    let alert_results := generate_alerts dhaka_results kolkata_results
    let s2 := update_orchestration_stats s processing_time alert_results.alerts.length
      coordination_results.coordinated_actions.length now
    Except.ok ({ status := "success", timestamp := now,
                 processing_time_seconds := some (pyRound 2 processing_time),
                 dhaka := some dhaka_results, kolkata := some kolkata_results,
                 cross_border_coordination := some coordination_results,
                 alerts := some alert_results,
                 orchestration_stats := some s2 }, s2)

/-- RegionalOrchestrator.run: the outer try/except boundary.  An exception
escaping the body is converted into a run-level error record with the
message and the wall clock, leaving the statistics untouched; no exception
ever propagates to the caller. -/
def run (ctx : PyCtx) (now processing_time : ℚ) (s : OrchStats) : RunResult × OrchStats :=
  match run_body ctx now processing_time s with
  | Except.ok r => r
  | Except.error e =>
    ({ status := "error", error := some e, timestamp := now,
       processing_time_seconds := some processing_time }, s)

/-- Claim C2: for every context value (absent, non-dictionary, or a
dictionary whose city entries may themselves make an inner step raise),
run returns a structured record whose status is success or error, carries
the wall-clock timestamp, pairs an error status with an error message, and
converts any exception escaping the body into an error record instead of
propagating it (run's type is total: no exception reaches the caller). -/
theorem C2_run_returns_status_and_timestamp (ctx : PyCtx) (now pt : ℚ) (s : OrchStats) :
    ((run ctx now pt s).1.status = "success" ∨
      ((run ctx now pt s).1.status = "error" ∧ (run ctx now pt s).1.error.isSome = true)) ∧
    (run ctx now pt s).1.timestamp = now ∧
    (∀ e : String, run_body ctx now pt s = Except.error e →
      (run ctx now pt s).1.status = "error" ∧ (run ctx now pt s).1.error = some e) := by
  cases ctx <;> simp [run, run_body]

/-- Claim C7 counterexample: a run invoked with a missing context ends in
status error and leaves every statistics counter untouched, so the
statistics are not updated once per run whenever the run ends in status
error. -/
theorem C7_counterexample_error_run_skips_stats :
    (run PyCtx.noneV 0 0 initial_stats).1.status = "error" ∧
    (run PyCtx.noneV 0 0 initial_stats).2 = initial_stats := by
  constructor <;> rfl

/-- Claim C7 amended: the orchestration statistics are updated exactly
once (total runs and successful runs each incremented by one, last run
stamped) on every run that ends in status success, including runs with
per-city failures; a run that ends in status error leaves the statistics
untouched. -/
theorem C7_stats_updated_once_iff_success (ctx : PyCtx) (now pt : ℚ) (s : OrchStats) :
    ((run ctx now pt s).1.status = "success" ∧
      (run ctx now pt s).2.total_runs = s.total_runs + 1 ∧
      (run ctx now pt s).2.successful_runs = s.successful_runs + 1 ∧
      (run ctx now pt s).2.last_run = some now) ∨
    ((run ctx now pt s).1.status = "error" ∧ (run ctx now pt s).2 = s) := by
  cases ctx <;> simp [run, run_body, update_orchestration_stats]

/-- The transboundary_transport entries of an alerts result. -/
def transboundary_alerts (ar : AlertsResult) : List DispatchedAlert :=
  ar.alerts.filter (fun a => a.alert.alert_type == "transboundary_transport")

/-- The transboundary alert record _generate_alerts builds from the two
city results. -/
def tb_alert_of (dhaka_results kolkata_results : CityResult) : DispatchedAlert :=
  ⟨{ alert_type := "transboundary_transport", severity := "high",
     affected_countries := ["BD", "IN"],
     dhaka_pm25 := some (dhaka_results.pm25.getD 0),
     kolkata_pm25 := some (kolkata_results.pm25.getD 0) },
   [("BD", ["government"]), ("IN", ["government"])]⟩

theorem transboundary_alerts_generate (dr kr : CityResult) :
    transboundary_alerts (generate_alerts dr kr) =
      if dr.status = "success" ∧ kr.status = "success" then
        if 0.5 < result_transboundary dr ∨ 0.4 < result_transboundary kr then
          [tb_alert_of dr kr]
        else []
      else [] := by
  unfold transboundary_alerts generate_alerts tb_alert_of
  split_ifs <;>
    simp_all [create_alert, List.filter_append, List.filter_cons, List.filter_nil]

/-- A concrete transboundary model result with adjusted transboundary
fraction 0.6, above the Dhaka alarm threshold. -/
def witness_model_result : ModelResult :=
  { timestamp := 0, country := "BD", base_local := 0.38, base_transboundary := 0.62,
    adjusted_local := 0.4, adjusted_transboundary := 0.6, transport_efficiency := 0.9,
    transport_time_hours := none, wind_speed_ms := 0, wind_direction_deg := 0,
    boundary_layer_height_m := 1000 }

/-- A successful Dhaka city result carrying witness_model_result. -/
def witness_dhaka_success : CityResult :=
  { status := "success", country_code := "BD",
    transboundary_model := some witness_model_result }

/-- A successful Kolkata city result with no transboundary model entry
(its fraction reads as the default 0). -/
def witness_kolkata_success : CityResult :=
  { status := "success", country_code := "IN" }

/-- A Kolkata city result for an absent input. -/
def witness_kolkata_no_data : CityResult :=
  { status := "no_data", country_code := "IN" }

/-- Claim C6 counterexample: Dhaka succeeds with an adjusted transboundary
fraction of 0.6, above its 0.5 alarm threshold, but because Kolkata ended
in no_data the run emits no transboundary alert at all: the extra alert is
not independent of the other city's processing outcome. -/
theorem C6_counterexample_partner_no_data :
    (0.5 : ℚ) < result_transboundary witness_dhaka_success ∧
    witness_kolkata_no_data.status = "no_data" ∧
    transboundary_alerts (generate_alerts witness_dhaka_success witness_kolkata_no_data)
      = [] := by
  refine ⟨by norm_num [result_transboundary, witness_dhaka_success, witness_model_result],
    rfl, rfl⟩

/-- Claim C6 amended: whenever both cities' processing succeeded and
either adjusted transboundary fraction exceeds its alarm threshold
(strictly above 0.5 for Dhaka, strictly above 0.4 for Kolkata), exactly
one additional transboundary alert is emitted, dispatched to both
countries' government channel only. -/
theorem C6_transboundary_alert_when_both_succeed (dr kr : CityResult)
    (hd : dr.status = "success") (hk : kr.status = "success")
    (h : (0.5 : ℚ) < result_transboundary dr ∨ (0.4 : ℚ) < result_transboundary kr) :
    ∃ a : DispatchedAlert,
      transboundary_alerts (generate_alerts dr kr) = [a] ∧
      a.alert.alert_type = "transboundary_transport" ∧
      a.dispatches = [("BD", ["government"]), ("IN", ["government"])] := by
  rw [transboundary_alerts_generate, if_pos ⟨hd, hk⟩, if_pos h]
  exact ⟨tb_alert_of dr kr, rfl, rfl, rfl⟩

/-- Claim C6 witness: at the concrete pair of successful city results with
Dhaka transboundary fraction 0.6 the amended statement produces its one
transboundary alert. -/
theorem C6_witness_concrete_alert :
    ∃ a : DispatchedAlert,
      transboundary_alerts (generate_alerts witness_dhaka_success witness_kolkata_success)
        = [a] ∧
      a.alert.alert_type = "transboundary_transport" ∧
      a.dispatches = [("BD", ["government"]), ("IN", ["government"])] :=
  C6_transboundary_alert_when_both_succeed witness_dhaka_success witness_kolkata_success
    rfl rfl
    (Or.inl (by norm_num [result_transboundary, witness_dhaka_success, witness_model_result]))

/-- The validated (possibly clamped) data _process_city_data hands to the
emission tracker, the transboundary model and the policy engine. -/
def validated_data_of (d : DataRecord) (country_code : String) : DataRecord :=
  (data_validator_execute (city_input d country_code)).modified_data

theorem data_validator_clamps_pm25 (d : DataRecord) (p : ℚ)
    (hp : d.pm25 = some p) (h900 : 900 < p) :
    (data_validator_execute d).modified_data.pm25 = some 900 := by
  have hneg : ¬ p < 0 := by linarith
  rcases hw : d.wind_speed_ms with _ | w <;>
    rcases ht : d.timestamp with _ | ⟨_ | a⟩ <;>
      simp only [data_validator_execute, hp, hw, ht] <;>
      split_ifs <;> first | contradiction | rfl

/-- Claim C10: a PM2.5 value above the validator maximum 900 is replaced
by exactly 900 in the validator's modified_data (never kept raw), and when
the per-city pipeline proceeds past validation, the emission tracker, the
transboundary model and the policy engine all receive that validated data,
whose PM2.5 is exactly 900. -/
theorem C10_pm25_clamped_for_downstream (d : DataRecord) (country_code : String)
    (now p : ℚ) (hp : d.pm25 = some p) (h900 : 900 < p) :
    (data_validator_execute d).modified_data.pm25 = some 900 ∧
    (data_validator_execute d).modified_data.pm25 ≠ some p ∧
    (validated_data_of d country_code).pm25 = some 900 ∧
    ((process_city_data (PyCityData.dict d) country_code now).status = "success" →
      (process_city_data (PyCityData.dict d) country_code now).pm25 = some 900 ∧
      (process_city_data (PyCityData.dict d) country_code now).emission_analysis =
        some (emission_execute (validated_data_of d country_code) now) ∧
      (process_city_data (PyCityData.dict d) country_code now).transboundary_model =
        some (transboundary_execute (validated_data_of d country_code) now) ∧
      ((process_city_data (PyCityData.dict d) country_code now).policy_recommendations.map
        PolicyDecision.pm25_level) = some 900) := by
  have hp2 : (city_input d country_code).pm25 = some p := hp
  have hclamp2 := data_validator_clamps_pm25 (city_input d country_code) p hp2 h900
  have hval : (validated_data_of d country_code).pm25 = some 900 := hclamp2
  refine ⟨data_validator_clamps_pm25 d p hp h900, ?_, hval, ?_⟩
  · rw [data_validator_clamps_pm25 d p hp h900]
    intro hcon
    have := Option.some.inj hcon
    linarith
  · intro hs
    by_cases hv : (data_validator_execute (city_input d country_code)).is_valid = false
    · exfalso
      simp only [process_city_data, city_body, hv, if_pos] at hs
      exact absurd hs (by decide)
    · simp only [process_city_data, city_body, if_neg hv] at hs ⊢
      refine ⟨?_, rfl, rfl, ?_⟩
      · show some ((validated_data_of d country_code).pm25.getD 0) = some 900
        rw [hval]
        rfl
      · show some (policy_execute _ now).pm25_level = some 900
        simp only [policy_execute]
        show some (({ validated_data_of d country_code with
          transboundary_percentage := some ((transboundary_execute
            (validated_data_of d country_code) now).adjusted_transboundary * 100)
          : DataRecord }).pm25.getD 0) = some 900
        have hpm : ({ validated_data_of d country_code with
            transboundary_percentage := some ((transboundary_execute
              (validated_data_of d country_code) now).adjusted_transboundary * 100)
            : DataRecord }).pm25 = (validated_data_of d country_code).pm25 := rfl
        rw [hpm, hval]
        rfl

/-- Claim C10 witness: PM2.5 950 is clamped to exactly 900 in the
validator's modified data. -/
theorem C10_witness_950_clamped :
    (data_validator_execute { pm25 := some 950, timestamp := some (TSVal.parsed 0) }
      : ValidationResults).modified_data.pm25 = some 900 :=
  (C10_pm25_clamped_for_downstream
    { pm25 := some 950, timestamp := some (TSVal.parsed 0) } "BD" 0 950 rfl
    (by norm_num)).1

end S2P
